import Mathlib

set_option linter.dupNamespace false

/-!
Shallow embedding of the program-lookup and timeshift-playlist code of the
go-radiko client (package radiko: the program/schedule file and timeshift.go).

Modelling conventions:
* Go structs become Lean structures; XML decode artifacts (XMLName fields)
  are dropped since they carry no data used by the functions.
* Go errors become constructors of `GoError`; each distinct `errors.New`
  call site in the embedded code is its own constructor, so two errors are
  equal in the model exactly when a Go caller could identify them
  (sentinel identity or a distinct message).
* Network, decoding and the missing helper functions (`newRequest`, `Do`,
  `CallWithAuthTokenHeader`, `internal.GetURIFromM3U8`) are oracles in an
  `Env` record: each is an arbitrary result the environment returns.
  Functions additionally return the list of external `Effect`s they
  attempted, in order.
* Go panics (nil dereference, index out of range) are the `panicked`
  constructor of `Outcome`; they propagate past every error branch.
* Machine integers are `Int` with the 64-bit range check made explicit in
  `atoi`, mirroring `strconv.Atoi` on a 64-bit platform.
-/

/-- Mirrors the Go struct `Prog` (all fields are strings). -/
structure Prog where
  Ft : String := ""
  To : String := ""
  Ftl : String := ""
  Tol : String := ""
  Dur : String := ""
  Title : String := ""
  SubTitle : String := ""
  Desc : String := ""
  Pfm : String := ""
  Info : String := ""
  URL : String := ""
deriving Repr, DecidableEq

/-- Mirrors the Go struct `Progs`: a date and a program list. -/
structure Progs where
  Date : String := ""
  Progs : List Prog := []
deriving Repr, DecidableEq

/-- Mirrors the Go struct `Scd`. -/
structure Scd where
  Progs : Progs := {}
deriving Repr, DecidableEq

/-- Mirrors the Go struct `Station`. -/
structure Station where
  ID : String := ""
  Name : String := ""
  Scd : Scd := {}
  Progs : Progs := {}
deriving Repr, DecidableEq

/-- A slice of `Station`, as in the Go source. -/
def Stations := List Station
deriving Repr, DecidableEq

/-- Go error values reachable in the embedded code. Each `errors.New` call
site gets its own constructor; `errProgramNotFound` is the package-level
sentinel `ErrProgramNotFound` (declared outside the embedded files and
referenced at the no-match return of `GetProgramByStartTime`). -/
inductive GoError where
  /-- The named sentinel `ErrProgramNotFound`. -/
  | errProgramNotFound
  /-- The `errors.New ("StationID is empty")` value in `GetProgramByStartTime`. -/
  | stationIDEmpty
  /-- The `errors.New ("CANT FIND THE PROGRAM")` value in `FindProgramByStation`. -/
  | cantFindTheProgram
  /-- A `strconv.Atoi` failure on the given string. -/
  | atoiError (s : String)
  /-- A transport error from `c.Do` or `c.CallWithAuthTokenHeader`. -/
  | transport (msg : String)
  /-- An XML decode error. -/
  | decodeError (msg : String)
  /-- A failure of `c.newRequest`. -/
  | requestError (msg : String)
  /-- A failure of `internal.GetURIFromM3U8`. -/
  | m3u8Error (msg : String)
deriving Repr, DecidableEq

/-- The outcome of running a Go function: a value, a returned error, or a
runtime panic (which no error branch of the embedded code catches). -/
inductive Outcome (α : Type) where
  | ok (a : α)
  | err (e : GoError)
  | panicked (msg : String)
deriving Repr, DecidableEq

/-- Embeds `strconv.Atoi`: optional sign, one or more decimal digits, 64-bit
signed range; anything else is an error. -/
def atoi (s : String) : Except GoError Int :=
  let cs := s.data
  let signed : Bool × List Char :=
    match cs with
    | '+' :: rest => (false, rest)
    | '-' :: rest => (true, rest)
    | _ => (false, cs)
  if signed.2 = [] ∨ ¬ signed.2.all Char.isDigit then
    .error (.atoiError s)
  else
    let n : Nat := signed.2.foldl (fun acc c => acc * 10 + (c.toNat - 48)) 0
    let v : Int := if signed.1 then -(n : Int) else (n : Int)
    if -9223372036854775808 ≤ v ∧ v ≤ 9223372036854775807 then .ok v
    else .error (.atoiError s)

/-- Modelled from the spec: `util.Datetime` (package internal/util, not
among the embedded files) formats an instant as the 14-digit string
`YYYYMMDDHHMMSS`. An instant is represented by that rendering, so the
formatter is the projection. -/
structure GoTime where
  datetime : String
deriving Repr, DecidableEq

/-- Modelled from the spec: the 14-digit `YYYYMMDDHHMMSS` rendering of an
instant, used both as exact-start key and as containment target. -/
def util.Datetime (t : GoTime) : String := t.datetime

/-- The `for _, prog := range progs` loop of `FindProgramByStation`
(lines 113-126): parse `Ft`, then `To`, fail on the first parse error,
return the first program with `from <= target && to > target`, and the
not-found error when the loop ends. -/
def findProgramLoop (progs : List Prog) (target : Int) : Except GoError Prog :=
  match progs with
  | [] => .error .cantFindTheProgram
  | p :: rest =>
    match atoi p.Ft with
    | .error e => .error e
    | .ok f =>
      match atoi p.To with
      | .error e => .error e
      | .ok t =>
        if f ≤ target ∧ t > target then .ok p
        else findProgramLoop rest target

/-- A program's half-open interval contains the target (used only to state
properties; the code itself runs `findProgramLoop`). -/
def progContains (p : Prog) (target : Int) : Bool :=
  match atoi p.Ft, atoi p.To with
  | .ok f, .ok t => decide (f ≤ target) && decide (t > target)
  | _, _ => false

/-- Both bounds of a program parse as integers. -/
def progParses (p : Prog) : Bool :=
  match atoi p.Ft, atoi p.To with
  | .ok _, .ok _ => true
  | _, _ => false

/-- An HTTP request as handed to the transport layer (opaque payload:
`newRequest` lives outside the embedded files). -/
structure Request where
  tag : Nat := 0
deriving Repr, DecidableEq

/-- External steps a function attempts, in order. -/
inductive Effect where
  /-- The `GetStations` area-schedule fetch (request + `c.Do` + decode). -/
  | fetchStations
  /-- The `GetProgramsByStation` station-schedule fetch. -/
  | fetchStationPrograms
  /-- The `c.newRequest` call for `ts/playlist.m3u8` with the given query. -/
  | buildPlaylistRequest (query : List (String × String))
  /-- The `c.CallWithAuthTokenHeader` call. -/
  | authTokenCall
deriving Repr, DecidableEq

/-- Mirrors the decoded XML response struct `stationsData`; the nested
`XMLStations.Stations` slice is the only payload. -/
structure stationsData where
  stations : List Station := []
deriving Repr, DecidableEq

/-- The Go method `stationsData.programs` returns
`d.XMLStations.Stations[0].Progs.Progs`. The index is unguarded, so on an
empty slice it is the runtime panic `index out of range`, modelled as
`none`. -/
def stationsData.programs (d : stationsData) : Option (List Prog) :=
  match d.stations with
  | [] => none
  | s :: _ => some s.Progs.Progs

/-- The environment: what each external step would answer if attempted.
Each field stands for missing plumbing (`newRequest`/`c.Do`/decoding,
`CallWithAuthTokenHeader`, `internal.GetURIFromM3U8`). -/
structure Env where
  /-- Combined result of the `GetStations` fetch and decode. -/
  scheduleFetch : Except GoError stationsData := .ok {}
  /-- Combined result of the `GetProgramsByStation` fetch and decode. -/
  stationFetch : Except GoError stationsData := .ok {}
  /-- Result of `c.newRequest` for the playlist endpoint, fed the query built by
  `TimeshiftPlaylistM3U8`. -/
  playlistReq : List (String × String) → Except GoError Request := fun _ => .ok {}
  /-- Result of `c.CallWithAuthTokenHeader` on a non-nil request: the response body. -/
  authCall : Request → Except GoError String := fun _ => .ok ""
  /-- What `c.CallWithAuthTokenHeader` does when handed the nil request
  left behind by a failed `newRequest` (its code is outside the embedded
  files; dereferencing nil panics in Go). -/
  authCallNil : Outcome String := .panicked "invalid memory address or nil pointer dereference"
  /-- Result of `internal.GetURIFromM3U8` on the response body. -/
  getURIFromM3U8 : String → Except GoError String := fun _ => .ok ""

/-- Embeds `GetStations` (lines 130-151): build the area-schedule request, fetch,
decode, and return `d.stations()`; every error short-circuits. -/
def GetStations (env : Env) (_date : GoTime) : Outcome (List Station) × List Effect :=
  match env.scheduleFetch with
  | .error e => (.err e, [.fetchStations])
  | .ok d => (.ok d.stations, [.fetchStations])

/-- Embeds `GetProgramsByStation` (lines 82-100): fetch and decode the station
schedule, then return `d.programs()` — which panics when the decoded
response holds no station. -/
def GetProgramsByStation (env : Env) (_stationId : String) (_date : GoTime) :
    Outcome (List Prog) × List Effect :=
  match env.stationFetch with
  | .error e => (.err e, [.fetchStationPrograms])
  | .ok d =>
    match d.programs with
    | none => (.panicked "runtime error: index out of range", [.fetchStationPrograms])
    | some ps => (.ok ps, [.fetchStationPrograms])

/-- Embeds `FindProgramByStation` (lines 102-127): get the station's programs,
parse the target datetime, then run the containment loop. -/
def FindProgramByStation (env : Env) (stationId : String) (date : GoTime) :
    Outcome Prog × List Effect :=
  match GetProgramsByStation env stationId date with
  | (.err e, log) => (.err e, log)
  | (.panicked m, log) => (.panicked m, log)
  | (.ok progs, log) =>
    match atoi (util.Datetime date) with
    | .error e => (.err e, log)
    | .ok target =>
      match findProgramLoop progs target with
      | .error e => (.err e, log)
      | .ok p => (.ok p, log)

/-- The inner loop of `GetProgramByStartTime` over one station's programs:
first program whose `Ft` equals the formatted start (the loop breaks at
the first hit). -/
def firstProgWithFt (ps : List Prog) (ft : String) : Option Prog :=
  ps.find? (fun p => p.Ft == ft)

/-- The station loop of `GetProgramByStartTime` (lines 192-202): `prog` is
reassigned at every identifier-matching station that contains an
`Ft`-matching program; the outer loop never breaks. -/
def progLoop (stations : List Station) (stationID ft : String) : Option Prog :=
  stations.foldl
    (fun acc s =>
      if s.ID == stationID then
        match firstProgWithFt s.Progs.Progs ft with
        | some p => some p
        | none => acc
      else acc)
    none

/-- Embeds `GetProgramByStartTime` (lines 181-207): reject an empty station
identifier before any fetch; fetch the area schedule; run the station
loop; `ErrProgramNotFound` when it leaves `prog` nil. -/
def GetProgramByStartTime (env : Env) (stationID : String) (start : GoTime) :
    Outcome Prog × List Effect :=
  if stationID = "" then (.err .stationIDEmpty, [])
  else
    match GetStations env start with
    | (.err e, log) => (.err e, log)
    | (.panicked m, log) => (.panicked m, log)
    | (.ok stations, log) =>
      match progLoop stations stationID (util.Datetime start) with
      | none => (.err .errProgramNotFound, log)
      | some p => (.ok p, log)

/-- Embeds `TimeshiftPlaylistM3U8` (timeshift.go lines 11-34): look the program
up, build the playlist query, construct the request — whose error the Go
code never reads: `err` is reassigned by the next call — then invoke
`CallWithAuthTokenHeader` (on the nil request if construction failed) and
extract the URI. -/
def TimeshiftPlaylistM3U8 (env : Env) (stationID : String) (start : GoTime) :
    Outcome String × List Effect :=
  match GetProgramByStartTime env stationID start with
  | (.err e, log) => (.err e, log)
  | (.panicked m, log) => (.panicked m, log)
  | (.ok prog, log) =>
    let query := [("station_id", stationID), ("ft", prog.Ft), ("to", prog.To), ("l", "15")]
    let log := log ++ [.buildPlaylistRequest query]
    match env.playlistReq query with
    | .error _ =>
      -- the construction error is discarded; the call is attempted on nil
      (env.authCallNil, log ++ [.authTokenCall])
    | .ok req =>
      match env.authCall req with
      | .error e => (.err e, log ++ [.authTokenCall])
      | .ok body =>
        match env.getURIFromM3U8 body with
        | .error e => (.err e, log ++ [.authTokenCall])
        | .ok uri => (.ok uri, log ++ [.authTokenCall])

/-- Specification-side description of the station loop, for comparison
with `progLoop`: the first `Ft`-matching program of the LAST
identifier-matching station that contains one. -/
def lastStationLookup (stations : List Station) (sid ft : String) : Option Prog :=
  match stations with
  | [] => none
  | s :: rest =>
    match lastStationLookup rest sid ft with
    | some p => some p
    | none => if s.ID == sid then firstProgWithFt s.Progs.Progs ft else none

/-- Two programs' half-open integer intervals do not overlap. -/
def intervalsDisjoint (p q : Prog) : Prop :=
  ∀ f t f' t' : Int, atoi p.Ft = .ok f → atoi p.To = .ok t →
    atoi q.Ft = .ok f' → atoi q.To = .ok t' → t ≤ f' ∨ t' ≤ f

/-! Concrete fixtures used by counterexamples and witnesses. -/

/-- A start instant whose formatted datetime is `20240101120000`. -/
def tNoon : GoTime := ⟨"20240101120000"⟩

/-- First program of the duplicate-station snapshot. -/
def pA : Prog := { Ft := "20240101120000", To := "20240101130000", Title := "first" }

/-- Second program of the duplicate-station snapshot (same start). -/
def pB : Prog := { Ft := "20240101120000", To := "20240101140000", Title := "second" }

/-- First station with identifier `X`, listing `pA`. -/
def stA : Station := { ID := "X", Progs := { Progs := [pA] } }

/-- Second station, same identifier `X`, listing `pB`. -/
def stB : Station := { ID := "X", Progs := { Progs := [pB] } }

/-- Environment whose area schedule lists two stations with identifier
`X`, each containing a program starting at noon. -/
def envDup : Env := { scheduleFetch := .ok { stations := [stA, stB] } }

/-- The `envDup` environment with a failing playlist-request construction. -/
def envReqFail : Env :=
  { envDup with playlistReq := fun _ => .error (.requestError "bad request") }

/-- Scenario B programs: `{Ft:100,To:200}` and `{Ft:200,To:300}`. -/
def progB1 : Prog := { Ft := "100", To := "200" }

/-- Second scenario B program. -/
def progB2 : Prog := { Ft := "200", To := "300" }

/-- The scenario B station carrying the flat program list. -/
def stationB : Station := { ID := "ST", Progs := { Progs := [progB1, progB2] } }

/-- Environment whose station schedule decodes to scenario B. -/
def envB : Env := { stationFetch := .ok { stations := [stationB] } }

/-- A malformed program: non-numeric `Ft`. -/
def progBad : Prog := { Ft := "oops", To := "200" }

/-- A well-formed early program that does not contain target `150`. -/
def progEarly : Prog := { Ft := "0", To := "50" }

/-- Scenario with a malformed entry scanned before a matching one. -/
def envBad : Env :=
  { stationFetch := .ok { stations :=
      [{ ID := "ST", Progs := { Progs := [progEarly, progBad, progB1] } }] } }

/-- Environment whose station schedule decodes to zero stations. -/
def envEmptyStations : Env := { stationFetch := .ok { stations := [] } }

/-- Environment whose area schedule has one station `Y` with no programs
starting at noon. -/
def envOtherStation : Env :=
  { scheduleFetch := .ok { stations := [{ ID := "Y", Progs := { Progs := [pA] } }] } }

example : atoi "100" = .ok 100 := rfl
example : atoi "-42" = .ok (-42) := rfl
example : atoi "" = .error (.atoiError "") := rfl
example : atoi "12x" = .error (.atoiError "12x") := rfl
example : findProgramLoop [{ Ft := "100", To := "200" }, { Ft := "200", To := "300" }] 150
    = .ok { Ft := "100", To := "200" } := rfl
example : findProgramLoop [{ Ft := "100", To := "200" }, { Ft := "200", To := "300" }] 200
    = .ok { Ft := "200", To := "300" } := rfl
example : findProgramLoop [{ Ft := "100", To := "200" }, { Ft := "200", To := "300" }] 300
    = .error .cantFindTheProgram := rfl

/-! Helper lemmas shared by the claim theorems. -/

theorem progParses_iff (p : Prog) :
    progParses p = true ↔ ∃ f t : Int, atoi p.Ft = .ok f ∧ atoi p.To = .ok t := by
  unfold progParses
  rcases hf : atoi p.Ft with e | f <;> rcases ht : atoi p.To with e' | t <;> simp

theorem progContains_iff (p : Prog) (target f t : Int)
    (hf : atoi p.Ft = .ok f) (ht : atoi p.To = .ok t) :
    progContains p target = true ↔ (f ≤ target ∧ t > target) := by
  unfold progContains
  rw [hf, ht]
  simp

theorem findProgramLoop_cons_eq (p : Prog) (rest : List Prog) (target f t : Int)
    (hf : atoi p.Ft = .ok f) (ht : atoi p.To = .ok t) :
    findProgramLoop (p :: rest) target =
      if f ≤ target ∧ t > target then .ok p else findProgramLoop rest target := by
  simp only [findProgramLoop, hf, ht]

theorem findProgramLoop_skips (pre rest : List Prog) (target : Int)
    (h : ∀ p ∈ pre, progParses p = true ∧ progContains p target = false) :
    findProgramLoop (pre ++ rest) target = findProgramLoop rest target := by
  induction pre with
  | nil => rfl
  | cons p pre ih =>
    obtain ⟨hp, hc⟩ := h p (List.mem_cons_self p pre)
    obtain ⟨f, t, hf, ht⟩ := (progParses_iff p).1 hp
    rw [List.cons_append, findProgramLoop_cons_eq p (pre ++ rest) target f t hf ht]
    rw [if_neg (by rw [← progContains_iff p target f t hf ht]; simp [hc])]
    exact ih (fun q hq => h q (List.mem_cons_of_mem p hq))

theorem findProgramLoop_first (progs : List Prog) (target : Int)
    (hall : ∀ p ∈ progs, progParses p = true) :
    (∀ p, findProgramLoop progs target = .ok p →
      ∃ pre post, progs = pre ++ p :: post ∧ progContains p target = true ∧
        ∀ q ∈ pre, progContains q target = false) ∧
    ((∀ p ∈ progs, progContains p target = false) →
      findProgramLoop progs target = .error .cantFindTheProgram) := by
  induction progs with
  | nil =>
    constructor
    · intro p h
      simp [findProgramLoop] at h
    · intro _
      rfl
  | cons p rest ih =>
    obtain ⟨f, t, hf, ht⟩ :=
      (progParses_iff p).1 (hall p (List.mem_cons_self p rest))
    have hrest : ∀ q ∈ rest, progParses q = true :=
      fun q hq => hall q (List.mem_cons_of_mem p hq)
    obtain ⟨ih1, ih2⟩ := ih hrest
    rw [findProgramLoop_cons_eq p rest target f t hf ht]
    by_cases hcond : f ≤ target ∧ t > target
    · rw [if_pos hcond]
      constructor
      · intro q hq
        obtain rfl : p = q := by
          cases hq
          rfl
        exact ⟨[], rest, rfl, (progContains_iff p target f t hf ht).2 hcond, by simp⟩
      · intro hnone
        have hfalse := hnone p (List.mem_cons_self p rest)
        have htrue := (progContains_iff p target f t hf ht).2 hcond
        rw [htrue] at hfalse
        cases hfalse
    · rw [if_neg hcond]
      have hp : progContains p target = false := by
        rw [← Bool.not_eq_true]
        intro hc
        exact hcond ((progContains_iff p target f t hf ht).1 hc)
      constructor
      · intro q hq
        obtain ⟨pre, post, hsplit, hc, hpre⟩ := ih1 q hq
        refine ⟨p :: pre, post, by rw [hsplit, List.cons_append], hc, ?_⟩
        intro r hr
        rcases List.mem_cons.1 hr with rfl | hr
        · exact hp
        · exact hpre r hr
      · intro hnone
        exact ih2 (fun q hq => hnone q (List.mem_cons_of_mem p hq))

theorem intervalsDisjoint_of_bounds (p q : Prog) (f t f' t' : Int)
    (hf : atoi p.Ft = .ok f) (ht : atoi p.To = .ok t)
    (hf' : atoi q.Ft = .ok f') (ht' : atoi q.To = .ok t')
    (h : t ≤ f' ∨ t' ≤ f) : intervalsDisjoint p q := by
  intro a b a' b' ha hb ha' hb'
  rw [hf] at ha
  rw [ht] at hb
  rw [hf'] at ha'
  rw [ht'] at hb'
  cases ha
  cases hb
  cases ha'
  cases hb'
  exact h

theorem findProgramLoop_of_contains (progs : List Prog) (target : Int)
    (hall : ∀ p ∈ progs, progParses p = true)
    (hdisj : progs.Pairwise intervalsDisjoint)
    (p : Prog) (hp : p ∈ progs) (hc : progContains p target = true) :
    findProgramLoop progs target = .ok p := by
  induction progs with
  | nil => cases hp
  | cons q rest ih =>
    obtain ⟨f, t, hf, ht⟩ :=
      (progParses_iff q).1 (hall q (List.mem_cons_self q rest))
    have hrest : ∀ r ∈ rest, progParses r = true :=
      fun r hr => hall r (List.mem_cons_of_mem q hr)
    rw [List.pairwise_cons] at hdisj
    obtain ⟨hdq, hdrest⟩ := hdisj
    rw [findProgramLoop_cons_eq q rest target f t hf ht]
    rcases List.mem_cons.1 hp with rfl | hp'
    · rw [if_pos ((progContains_iff p target f t hf ht).1 hc)]
    · obtain ⟨f', t', hf', ht'⟩ := (progParses_iff p).1 (hrest p hp')
      have hcb := (progContains_iff p target f' t' hf' ht').1 hc
      have hqdisj := hdq p hp' f t f' t' hf ht hf' ht'
      rw [if_neg ?_]
      · exact ih hrest hdrest hp'
      · rintro ⟨h1, h2⟩
        rcases hqdisj with hle | hle <;> omega

theorem progLoop_foldl (stations : List Station) (sid ft : String)
    (acc : Option Prog) :
    stations.foldl
        (fun acc s =>
          if s.ID == sid then
            match firstProgWithFt s.Progs.Progs ft with
            | some p => some p
            | none => acc
          else acc)
        acc =
      match lastStationLookup stations sid ft with
      | some p => some p
      | none => acc := by
  induction stations generalizing acc with
  | nil => rfl
  | cons s rest ih =>
    rw [List.foldl_cons, ih]
    show _ =
      match
        (match lastStationLookup rest sid ft with
         | some p => some p
         | none => if s.ID == sid then firstProgWithFt s.Progs.Progs ft else none) with
      | some p => some p
      | none => acc
    cases lastStationLookup rest sid ft with
    | some p => rfl
    | none =>
      by_cases hid : s.ID == sid
      · rw [if_pos hid]
        cases firstProgWithFt s.Progs.Progs ft <;> simp [hid]
      · simp [hid]

theorem progLoop_eq (stations : List Station) (sid ft : String) :
    progLoop stations sid ft = lastStationLookup stations sid ft := by
  unfold progLoop
  rw [progLoop_foldl]
  cases lastStationLookup stations sid ft <;> rfl

theorem lastStationLookup_none (stations : List Station) (sid ft : String)
    (h : ∀ s ∈ stations, s.ID = sid → firstProgWithFt s.Progs.Progs ft = none) :
    lastStationLookup stations sid ft = none := by
  induction stations with
  | nil => rfl
  | cons s rest ih =>
    show (match lastStationLookup rest sid ft with
      | some p => some p
      | none => if s.ID == sid then firstProgWithFt s.Progs.Progs ft else none) = none
    rw [ih (fun r hr => h r (List.mem_cons_of_mem s hr))]
    by_cases hid : s.ID = sid
    · simp only [hid, beq_self_eq_true, if_true]
      exact h s (List.mem_cons_self s rest) hid
    · simp [hid]

theorem findProgramByStation_eq (env : Env) (sid : String) (d : GoTime)
    (progs : List Prog) (target : Int)
    (hfetch : (GetProgramsByStation env sid d).1 = .ok progs)
    (htgt : atoi (util.Datetime d) = .ok target) :
    (FindProgramByStation env sid d).1 =
      match findProgramLoop progs target with
      | .ok p => .ok p
      | .error e => .err e := by
  unfold FindProgramByStation
  rcases hg : GetProgramsByStation env sid d with ⟨o, log⟩
  rw [hg] at hfetch
  simp only at hfetch
  subst hfetch
  simp only [htgt]
  cases findProgramLoop progs target <;> rfl

theorem getProgramByStartTime_eq (env : Env) (sid : String) (t : GoTime)
    (d : stationsData)
    (hsid : sid ≠ "") (hd : env.scheduleFetch = .ok d) :
    (GetProgramByStartTime env sid t).1 =
      match lastStationLookup d.stations sid (util.Datetime t) with
      | some p => .ok p
      | none => .err .errProgramNotFound := by
  unfold GetProgramByStartTime GetStations
  rw [if_neg hsid, hd]
  simp only
  rw [progLoop_eq]
  cases lastStationLookup d.stations sid (util.Datetime t) <;> rfl

theorem findProgramByStation_target_err (env : Env) (sid : String) (d : GoTime)
    (progs : List Prog) (e : GoError)
    (hfetch : (GetProgramsByStation env sid d).1 = .ok progs)
    (htgt : atoi (util.Datetime d) = .error e) :
    (FindProgramByStation env sid d).1 = .err e := by
  unfold FindProgramByStation
  rcases hg : GetProgramsByStation env sid d with ⟨o, log⟩
  rw [hg] at hfetch
  simp only at hfetch
  subst hfetch
  simp only [htgt]

/-! Claim theorems. -/

/-- C1: counterexample. The snapshot `[stA, stB]` lists two stations with
identifier `X`; the first station's first (and only) program `pA` has
`Ft` equal to the formatted target, so the claim says `pA` is returned —
but the lookup returns `pB`, the program of the LAST matching station. -/
theorem c1_first_station_cex :
    (GetProgramByStartTime envDup "X" tNoon).1 = .ok pB ∧
    pA ≠ pB ∧
    envDup.scheduleFetch = .ok { stations := [stA, stB] } ∧
    stA.ID = "X" ∧ stA.Progs.Progs = [pA] ∧ pA.Ft = util.Datetime tNoon :=
  ⟨rfl, by decide, rfl, rfl, rfl, rfl⟩

/-- C1 (amended): with a non-empty identifier and a successful schedule
fetch, the exact-start lookup returns the first `Ft`-matching program of
the LAST identifier-matching station containing one (`lastStationLookup`),
and the not-found error when no matching station holds a match; within a
single station the first match in listing order is still the one taken. -/
theorem c1_last_station_first_prog (env : Env) (sid : String) (t : GoTime)
    (d : stationsData) (hsid : sid ≠ "") (hd : env.scheduleFetch = .ok d) :
    (GetProgramByStartTime env sid t).1 =
      match lastStationLookup d.stations sid (util.Datetime t) with
      | some p => .ok p
      | none => .err .errProgramNotFound :=
  getProgramByStartTime_eq env sid t d hsid hd

/-- C1 (amended) witness: the duplicate-station snapshot evaluated. -/
theorem c1_last_station_first_prog_witness :
    (GetProgramByStartTime envDup "X" tNoon).1 =
      match lastStationLookup [stA, stB] "X" (util.Datetime tNoon) with
      | some p => .ok p
      | none => .err .errProgramNotFound :=
  c1_last_station_first_prog envDup "X" tNoon { stations := [stA, stB] }
    (by decide) rfl

/-- C2: code-bug evidence. When playlist-request construction fails, the
construction error is not returned (the Go code overwrites `err` without
reading it): the authenticated call is still attempted, on the nil
request, and the outcome is a nil-dereference panic. -/
theorem c2_request_error_ignored :
    envReqFail.playlistReq
        [("station_id", "X"), ("ft", pB.Ft), ("to", pB.To), ("l", "15")]
      = .error (.requestError "bad request") ∧
    (TimeshiftPlaylistM3U8 envReqFail "X" tNoon).1
      = .panicked "invalid memory address or nil pointer dereference" ∧
    (TimeshiftPlaylistM3U8 envReqFail "X" tNoon).1
      ≠ .err (.requestError "bad request") ∧
    Effect.authTokenCall ∈ (TimeshiftPlaylistM3U8 envReqFail "X" tNoon).2 :=
  ⟨rfl, rfl, by decide, by decide⟩

/-- C3: with a successful fetch, an integer target and integer bounds on
every listed program, interval-containment lookup returns the first
program in listed order whose half-open interval contains the target, and
the not-found error when no program contains it. -/
theorem c3_find_first_containing (env : Env) (sid : String) (d : GoTime)
    (progs : List Prog) (target : Int)
    (hfetch : (GetProgramsByStation env sid d).1 = .ok progs)
    (htgt : atoi (util.Datetime d) = .ok target)
    (hall : ∀ p ∈ progs, progParses p = true) :
    (∀ p, (FindProgramByStation env sid d).1 = .ok p →
      ∃ pre post, progs = pre ++ p :: post ∧ progContains p target = true ∧
        ∀ q ∈ pre, progContains q target = false) ∧
    ((∀ p ∈ progs, progContains p target = false) →
      (FindProgramByStation env sid d).1 = .err .cantFindTheProgram) := by
  have heq := findProgramByStation_eq env sid d progs target hfetch htgt
  obtain ⟨h1, h2⟩ := findProgramLoop_first progs target hall
  constructor
  · intro p hp
    rw [heq] at hp
    rcases hl : findProgramLoop progs target with e | q
    · rw [hl] at hp
      simp at hp
    · rw [hl] at hp
      injection hp with h
      subst h
      exact h1 _ hl
  · intro hnone
    rw [heq, h2 hnone]

/-- C3 witness: scenario B — `[{Ft:100,To:200},{Ft:200,To:300}]` with
target `150` yields the first program, `200` the second (half-open) and
`300` the not-found error; the last equality via the C3 theorem. -/
theorem c3_witness :
    (FindProgramByStation envB "ST" ⟨"150"⟩).1 = .ok progB1 ∧
    (FindProgramByStation envB "ST" ⟨"200"⟩).1 = .ok progB2 ∧
    (FindProgramByStation envB "ST" ⟨"300"⟩).1 = .err .cantFindTheProgram :=
  ⟨rfl, rfl,
    (c3_find_first_containing envB "ST" ⟨"300"⟩ [progB1, progB2] 300
        rfl rfl (by decide)).2 (by decide)⟩

/-- C4: with well-formed, pairwise non-overlapping intervals, the
interval-containment lookup returns whichever program contains the target
(so the unique one), and the not-found error for a target outside all
intervals. -/
theorem c4_unique_containing (env : Env) (sid : String) (d : GoTime)
    (progs : List Prog) (target : Int)
    (hfetch : (GetProgramsByStation env sid d).1 = .ok progs)
    (htgt : atoi (util.Datetime d) = .ok target)
    (hall : ∀ p ∈ progs, progParses p = true)
    (_hwf : ∀ p ∈ progs, ∀ f t : Int, atoi p.Ft = .ok f → atoi p.To = .ok t → f < t)
    (hdisj : progs.Pairwise intervalsDisjoint) :
    (∀ p ∈ progs, progContains p target = true →
      (FindProgramByStation env sid d).1 = .ok p) ∧
    ((∀ p ∈ progs, progContains p target = false) →
      (FindProgramByStation env sid d).1 = .err .cantFindTheProgram) := by
  have heq := findProgramByStation_eq env sid d progs target hfetch htgt
  constructor
  · intro p hp hc
    rw [heq, findProgramLoop_of_contains progs target hall hdisj p hp hc]
  · intro hnone
    rw [heq, (findProgramLoop_first progs target hall).2 hnone]

/-- C4 witness: scenario B's intervals `[100,200)` and `[200,300)` are
disjoint and well-formed; target `150` returns the unique container. -/
theorem c4_witness :
    (FindProgramByStation envB "ST" ⟨"150"⟩).1 = .ok progB1 := by
  have hwf : ∀ p ∈ [progB1, progB2], ∀ f t : Int,
      atoi p.Ft = .ok f → atoi p.To = .ok t → f < t := by
    intro p hp f t hf ht
    rcases List.mem_cons.1 hp with rfl | hp'
    · rw [show atoi progB1.Ft = .ok 100 from rfl] at hf
      rw [show atoi progB1.To = .ok 200 from rfl] at ht
      cases hf
      cases ht
      omega
    · rw [List.mem_singleton] at hp'
      subst hp'
      rw [show atoi progB2.Ft = .ok 200 from rfl] at hf
      rw [show atoi progB2.To = .ok 300 from rfl] at ht
      cases hf
      cases ht
      omega
  have hdisj : List.Pairwise intervalsDisjoint [progB1, progB2] := by
    rw [List.pairwise_cons]
    refine ⟨?_, by simp⟩
    intro q hq
    rw [List.mem_singleton] at hq
    subst hq
    exact intervalsDisjoint_of_bounds progB1 progB2 100 200 200 300
      rfl rfl rfl rfl (Or.inl le_rfl)
  exact (c4_unique_containing envB "ST" ⟨"150"⟩ [progB1, progB2] 150
      rfl rfl (by decide) hwf hdisj).1 progB1 (by decide) (by decide)

/-- C5: a malformed `Ft`/`To` on any program scanned before a match makes
the lookup fail with that parse error — even when a later well-formed
entry contains the target — and a non-numeric target fails with its parse
error no matter what the program list holds. -/
theorem c5_parse_error_strict (env : Env) (sid : String) (d : GoTime)
    (progs pre rest : List Prog) (bad : Prog) (target : Int) (e : GoError)
    (hfetch : (GetProgramsByStation env sid d).1 = .ok progs)
    (htgt : atoi (util.Datetime d) = .ok target)
    (hsplit : progs = pre ++ bad :: rest)
    (hpre : ∀ p ∈ pre, progParses p = true ∧ progContains p target = false)
    (hbad : atoi bad.Ft = .error e ∨
      ∃ f, atoi bad.Ft = .ok f ∧ atoi bad.To = .error e) :
    (FindProgramByStation env sid d).1 = .err e ∧
    (∀ env2 d2 progs2 e2, (GetProgramsByStation env2 sid d2).1 = .ok progs2 →
      atoi (util.Datetime d2) = .error e2 →
      (FindProgramByStation env2 sid d2).1 = .err e2) := by
  constructor
  · have heq := findProgramByStation_eq env sid d progs target hfetch htgt
    rw [heq, hsplit, findProgramLoop_skips pre (bad :: rest) target hpre]
    rcases hbad with hb | ⟨f, hf, hb⟩
    · simp [findProgramLoop, hb]
    · simp [findProgramLoop, hf, hb]
  · intro env2 d2 progs2 e2 hf2 ht2
    exact findProgramByStation_target_err env2 sid d2 progs2 e2 hf2 ht2

/-- C5 witness: `[{Ft:0,To:50},{Ft:oops,To:200},{Ft:100,To:200}]` at
target `150` fails with the parse error on `oops`, although the later
well-formed entry contains `150`. -/
theorem c5_witness :
    (FindProgramByStation envBad "ST" ⟨"150"⟩).1 = .err (.atoiError "oops") ∧
    progContains progB1 150 = true :=
  ⟨(c5_parse_error_strict envBad "ST" ⟨"150"⟩ [progEarly, progBad, progB1]
      [progEarly] [progB1] progBad 150 (.atoiError "oops")
      rfl rfl rfl (by decide) (Or.inl rfl)).1,
   by decide⟩

/-- C6: counterexample. The interval-containment lookup's no-match error
is the ad-hoc `errors.New ("CANT FIND THE PROGRAM")` value, not the named
`ErrProgramNotFound` sentinel the claim requires for both lookup modes. -/
theorem c6_interval_notfound_unnamed_cex :
    (FindProgramByStation envB "ST" ⟨"300"⟩).1 = .err .cantFindTheProgram ∧
    GoError.cantFindTheProgram ≠ GoError.errProgramNotFound :=
  ⟨rfl, by decide⟩

/-- C6 (amended): the exact-start lookup's no-match outcome is the named
sentinel `ErrProgramNotFound`; the interval-containment lookup's no-match
outcome is the distinct ad-hoc error `CANT FIND THE PROGRAM`. Each is
distinguishable from parse and decode errors, but only the exact-start
mode returns the named sentinel. -/
theorem c6_notfound_error_values (env env2 : Env) (sid sid2 : String)
    (t d : GoTime) (dd : stationsData) (progs : List Prog) (target : Int)
    (hsid : sid ≠ "") (hd : env.scheduleFetch = .ok dd)
    (hnm : ∀ s ∈ dd.stations, s.ID = sid →
      firstProgWithFt s.Progs.Progs (util.Datetime t) = none)
    (hfetch : (GetProgramsByStation env2 sid2 d).1 = .ok progs)
    (htgt : atoi (util.Datetime d) = .ok target)
    (hnone : ∀ p ∈ progs, progParses p = true ∧ progContains p target = false) :
    (GetProgramByStartTime env sid t).1 = .err .errProgramNotFound ∧
    (FindProgramByStation env2 sid2 d).1 = .err .cantFindTheProgram ∧
    GoError.cantFindTheProgram ≠ GoError.errProgramNotFound ∧
    (∀ msg, GoError.errProgramNotFound ≠ .atoiError msg ∧
      GoError.cantFindTheProgram ≠ .atoiError msg ∧
      GoError.errProgramNotFound ≠ .decodeError msg ∧
      GoError.cantFindTheProgram ≠ .decodeError msg) := by
  refine ⟨?_, ?_, by decide, ?_⟩
  · rw [getProgramByStartTime_eq env sid t dd hsid hd,
      lastStationLookup_none dd.stations sid _ hnm]
  · rw [findProgramByStation_eq env2 sid2 d progs target hfetch htgt,
      (findProgramLoop_first progs target (fun p hp => (hnone p hp).1)).2
        (fun p hp => (hnone p hp).2)]
  · intro msg
    refine ⟨?_, ?_, ?_, ?_⟩ <;> intro h <;> cases h

/-- C6 (amended) witness: no-match in each mode, evaluated. -/
theorem c6_notfound_error_values_witness :
    (GetProgramByStartTime envOtherStation "X" tNoon).1
      = .err .errProgramNotFound ∧
    (FindProgramByStation envB "ST" ⟨"300"⟩).1 = .err .cantFindTheProgram :=
  ⟨(c6_notfound_error_values envOtherStation envB "X" "ST" tNoon ⟨"300"⟩
      { stations := [{ ID := "Y", Progs := { Progs := [pA] } }] }
      [progB1, progB2] 300
      (by decide) rfl (by decide) rfl rfl (by decide)).1,
   (c6_notfound_error_values envOtherStation envB "X" "ST" tNoon ⟨"300"⟩
      { stations := [{ ID := "Y", Progs := { Progs := [pA] } }] }
      [progB1, progB2] 300
      (by decide) rfl (by decide) rfl rfl (by decide)).2.1⟩

/-- C7: an empty station identifier makes the playlist resolver (via the
exact-start lookup's validation) return the parameter error with an empty
effect log — no fetch, no network step is attempted for any environment. -/
theorem c7_empty_station_param_error (env : Env) (t : GoTime) :
    TimeshiftPlaylistM3U8 env "" t = (.err .stationIDEmpty, []) ∧
    GetProgramByStartTime env "" t = (.err .stationIDEmpty, []) := by
  have h : GetProgramByStartTime env "" t = (.err .stationIDEmpty, []) := by
    unfold GetProgramByStartTime
    rw [if_pos rfl]
  refine ⟨?_, h⟩
  unfold TimeshiftPlaylistM3U8
  rw [h]

/-- C8: whenever the program lookup succeeds, the playlist request is
built with exactly `station_id`, `ft` = the matched program's `Ft`,
`to` = its `To`, and the fixed `l` = 15. -/
theorem c8_playlist_query (env : Env) (sid : String) (t : GoTime)
    (prog : Prog) (log1 : List Effect)
    (h : GetProgramByStartTime env sid t = (.ok prog, log1)) :
    Effect.buildPlaylistRequest
        [("station_id", sid), ("ft", prog.Ft), ("to", prog.To), ("l", "15")]
      ∈ (TimeshiftPlaylistM3U8 env sid t).2 := by
  unfold TimeshiftPlaylistM3U8
  rw [h]
  simp only
  rcases hpr : env.playlistReq
      [("station_id", sid), ("ft", prog.Ft), ("to", prog.To), ("l", "15")]
    with e | req
  · simp
  · rcases hac : env.authCall req with e | body
    · simp [hac]
    · rcases hgu : env.getURIFromM3U8 body with e | uri <;> simp [hac, hgu]

/-- C8 witness: the duplicate-station environment, where the lookup
returns `pB`; its bounds appear in the built query. -/
theorem c8_playlist_query_witness :
    Effect.buildPlaylistRequest
        [("station_id", "X"), ("ft", pB.Ft), ("to", pB.To), ("l", "15")]
      ∈ (TimeshiftPlaylistM3U8 envDup "X" tNoon).2 :=
  c8_playlist_query envDup "X" tNoon pB [.fetchStations] rfl

/-- C9: when the decoded station-schedule response holds zero stations,
`GetProgramsByStation` neither succeeds nor returns an error: the
unguarded `Stations[0]` in `programs()` panics. -/
theorem c9_empty_stations_panics (env : Env) (sid : String) (t : GoTime)
    (d : stationsData) (hd : env.stationFetch = .ok d)
    (hempty : d.stations = []) :
    (GetProgramsByStation env sid t).1
      = .panicked "runtime error: index out of range" ∧
    (∀ e, (GetProgramsByStation env sid t).1 ≠ .err e) ∧
    (∀ ps, (GetProgramsByStation env sid t).1 ≠ .ok ps) := by
  have h : (GetProgramsByStation env sid t).1
      = .panicked "runtime error: index out of range" := by
    unfold GetProgramsByStation
    rw [hd]
    simp only [stationsData.programs, hempty]
  refine ⟨h, fun e he => ?_, fun ps hp => ?_⟩
  · rw [h] at he
    cases he
  · rw [h] at hp
    cases hp

/-- C9 witness: the zero-station environment evaluated. -/
theorem c9_empty_stations_panics_witness :
    (GetProgramsByStation envEmptyStations "ST" tNoon).1
      = .panicked "runtime error: index out of range" :=
  (c9_empty_stations_panics envEmptyStations "ST" tNoon { stations := [] }
    rfl rfl).1

/-- C10: the exact-start lookup returns the very same error value
`ErrProgramNotFound` whether no station bears the identifier at all or a
station does but none of its programs starts at the target. -/
theorem c10_notfound_indistinct (env : Env) (sid : String) (t : GoTime)
    (d : stationsData) (hsid : sid ≠ "") (hd : env.scheduleFetch = .ok d) :
    ((∀ s ∈ d.stations, s.ID ≠ sid) →
      (GetProgramByStartTime env sid t).1 = .err .errProgramNotFound) ∧
    ((∀ s ∈ d.stations, s.ID = sid →
        firstProgWithFt s.Progs.Progs (util.Datetime t) = none) →
      (GetProgramByStartTime env sid t).1 = .err .errProgramNotFound) := by
  have heq := getProgramByStartTime_eq env sid t d hsid hd
  constructor
  · intro h
    rw [heq, lastStationLookup_none d.stations sid _
      (fun s hs hid => absurd hid (h s hs))]
  · intro h
    rw [heq, lastStationLookup_none d.stations sid _ h]

/-- C10 witness: both no-match causes evaluated to the same error. -/
theorem c10_notfound_indistinct_witness :
    (GetProgramByStartTime envOtherStation "X" tNoon).1
      = .err .errProgramNotFound ∧
    (GetProgramByStartTime envDup "X" ⟨"19990101000000"⟩).1
      = .err .errProgramNotFound :=
  ⟨(c10_notfound_indistinct envOtherStation "X" tNoon
      { stations := [{ ID := "Y", Progs := { Progs := [pA] } }] }
      (by decide) rfl).1 (by decide),
   (c10_notfound_indistinct envDup "X" ⟨"19990101000000"⟩
      { stations := [stA, stB] }
      (by decide) rfl).2 (by decide)⟩
